import Mathlib

/-!
# request-baskets: construction of the server configuration (`config.go`)

A shallow embedding of `config.go`: the `ServerConfig` record, the repeatable
`arrayFlags` accumulator, `normalizePrefix` and `CreateConfig`.

`CreateConfig` reads the process arguments through Go's standard `flag`
package, so the part of that package the function runs (`FlagSet.Parse`,
`FlagSet.parseOne`, the `Set` methods of the int, string and bool values, and
`strconv.ParseInt` / `strconv.ParseBool` behind them) is embedded as well.

Go strings are byte sequences: `len` counts bytes and `s[0]` is a byte.
-/

namespace RequestBaskets

/-! ## Go strings -/

/-- A Go string: an immutable sequence of bytes. -/
abbrev GoString := List UInt8

/-- The bytes of a source-code string literal (Go source is UTF-8). -/
def lit (s : String) : GoString := s.data.flatMap String.utf8EncodeChar

/-! ## `strconv` (Go standard library) -/

/-- The two error kinds of `strconv`: `ErrSyntax` and `ErrRange`. -/
inductive NumError where
  | ErrSyntax
  | ErrRange
deriving DecidableEq, Repr

/-- `lower(c)` of `strconv`: `c | ('x' - 'X')`. -/
def lower (c : UInt8) : UInt8 := c ||| 32

/-- `strconv.IntSize` on a 64-bit platform. -/
def IntSize : Nat := 64

/-- The largest `uint64`. -/
def maxUint64 : Nat := 2 ^ 64 - 1

/-- State of the scan of `underscoreOK`: the variable `saw`. -/
inductive Saw where
  | start
  | digit
  | underscore
  | other
deriving DecidableEq, Repr

/-- The loop of `underscoreOK` over the bytes left to read. -/
def underscoreScan (hex : Bool) : Saw → List UInt8 → Bool
  | saw, [] => saw != Saw.underscore
  | saw, c :: cs =>
    if (48 ≤ c ∧ c ≤ 57) ∨ (hex = true ∧ 97 ≤ lower c ∧ lower c ≤ 102) then
      underscoreScan hex Saw.digit cs
    else if c = 95 then
      if saw != Saw.digit then false else underscoreScan hex Saw.underscore cs
    else if saw == Saw.underscore then false
    else underscoreScan hex Saw.other cs

/-- `underscoreOK(s)` of `strconv`: underscores appear only between digits (or
between a base prefix and a digit). -/
def underscoreOK (s : GoString) : Bool :=
  let s := if s.head? = some 45 ∨ s.head? = some 43 then s.drop 1 else s
  match s with
  | c0 :: c1 :: rest =>
    if c0 = 48 ∧ (lower c1 = 98 ∨ lower c1 = 111 ∨ lower c1 = 120) then
      underscoreScan (lower c1 == 120) Saw.digit rest
    else underscoreScan false Saw.start s
  | _ => underscoreScan false Saw.start s

/-- The digit loop of `strconv.ParseUint`: `n` is the value read so far,
`underscores` whether an underscore was skipped. Returns the value and that flag. -/
def parseDigits (base : Nat) (base0 : Bool) (cutoff maxVal : Nat) :
    List UInt8 → Nat → Bool → Except NumError (Nat × Bool)
  | [], n, underscores => .ok (n, underscores)
  | c :: cs, n, underscores =>
    if c = 95 ∧ base0 = true then parseDigits base base0 cutoff maxVal cs n true
    else
      let d : Option Nat :=
        if 48 ≤ c ∧ c ≤ 57 then some (c.toNat - 48)
        else if 97 ≤ lower c ∧ lower c ≤ 122 then some ((lower c).toNat - 97 + 10)
        else none
      match d with
      | none => .error NumError.ErrSyntax
      | some d =>
        if d ≥ base then .error NumError.ErrSyntax
        else if n ≥ cutoff then .error NumError.ErrRange
        else
          let n := (n * base) % 2 ^ 64
          let n1 := (n + d) % 2 ^ 64
          if n1 < n ∨ n1 > maxVal then .error NumError.ErrRange
          else parseDigits base base0 cutoff maxVal cs n1 underscores

/-- `strconv.ParseUint(s, 0, bitSize)` (base 0: the base comes from the prefix of
`s`; the callers here pass a `bitSize` between 1 and 64). -/
def ParseUint0 (s : GoString) (bitSize : Nat) : Except NumError Nat :=
  match s with
  | [] => .error NumError.ErrSyntax
  | c0 :: s1 =>
    let (base, digits) : Nat × GoString :=
      if c0 = 48 then
        match s1 with
        | c1 :: s2 =>
          if s.length ≥ 3 ∧ lower c1 = 98 then (2, s2)
          else if s.length ≥ 3 ∧ lower c1 = 111 then (8, s2)
          else if s.length ≥ 3 ∧ lower c1 = 120 then (16, s2)
          else (8, s1)
        | [] => (8, s1)
      else (10, s)
    let cutoff := maxUint64 / base + 1
    let maxVal := 2 ^ bitSize - 1
    match parseDigits base true cutoff maxVal digits 0 false with
    | .error e => .error e
    | .ok (n, underscores) =>
      if underscores = true ∧ underscoreOK s = false then .error NumError.ErrSyntax
      else .ok n

/-- `strconv.ParseInt(s, 0, bitSize)`: an optional sign, then `ParseUint`, then the
range check of a signed integer of `bitSize` bits. -/
def ParseInt0 (s : GoString) (bitSize : Nat) : Except NumError Int :=
  match s with
  | [] => .error NumError.ErrSyntax
  | c0 :: s1 =>
    let neg : Bool := c0 == 45
    let body : GoString := if c0 = 43 ∨ c0 = 45 then s1 else s
    match ParseUint0 body bitSize with
    | .error e => .error e
    | .ok un =>
      let cutoff : Nat := 2 ^ (bitSize - 1)
      if neg = false ∧ un ≥ cutoff then .error NumError.ErrRange
      else if neg = true ∧ un > cutoff then .error NumError.ErrRange
      else .ok (if neg then -(un : Int) else (un : Int))

/-- `strconv.ParseBool(str)`. -/
def ParseBool (str : GoString) : Except NumError Bool :=
  if str = lit "1" ∨ str = lit "t" ∨ str = lit "T" ∨ str = lit "true" ∨ str = lit "TRUE"
      ∨ str = lit "True" then .ok true
  else if str = lit "0" ∨ str = lit "f" ∨ str = lit "F" ∨ str = lit "false"
      ∨ str = lit "FALSE" ∨ str = lit "False" then .ok false
  else .error NumError.ErrSyntax

/-! ## `config.go`: constants, record, accumulator -/

def defaultServicePort : Int := 55555
def defaultServiceAddr : GoString := lit "127.0.0.1"
def defaultPageSize : Int := 20
def initBasketCapacity : Int := 200
def maxBasketCapacity : Int := 2000
def defaultAllowForward : Bool := false

/-- Modelled from the spec: the constant `DbTypeMemory` is declared outside
`config.go`; the spec gives the default of option `db` as "memory". -/
def DbTypeMemory : GoString := lit "memory"

/-- Modelled from the spec: the constant `ModePublic` is declared outside
`config.go`; the spec gives the default of option `mode` as "public". -/
def ModePublic : GoString := lit "public"

/-- Modelled from the spec: the constant `ThemeStandard` is declared outside
`config.go`; the spec gives the default of option `theme` as "standard". -/
def ThemeStandard : GoString := lit "standard"

def defaultDatabaseType : GoString := DbTypeMemory

/-- `ServerConfig` describes server configuration. -/
structure ServerConfig where
  ServerPort : Int
  ServerAddr : GoString
  InitCapacity : Int
  MaxCapacity : Int
  PageSize : Int
  MasterToken : GoString
  DbType : GoString
  DbFile : GoString
  DbConnection : GoString
  Baskets : List GoString
  PathPrefix : GoString
  Mode : GoString
  Theme : GoString
  ThemeCSS : GoString
  AllowForward : Bool
deriving DecidableEq, Repr

/-- `type arrayFlags []string`. -/
abbrev arrayFlags := List GoString

/-- `arrayFlags.Set`: `*v = append(*v, value); return nil`. The result is the new
accumulator and the returned error (`none` is Go's `nil`). -/
def arrayFlags.Set (v : arrayFlags) (value : GoString) : arrayFlags × Option GoString :=
  (v ++ [value], none)

/-- `normalizePrefix` of `config.go`. -/
def normalizePrefix (pfx : GoString) : GoString :=
  if pfx.length > 0 ∧ pfx.head? ≠ some 47 then lit "/" ++ pfx else pfx

/-! ## `flag` (Go standard library), with the flags `CreateConfig` defines -/

/-- The variables behind the flags of `CreateConfig`, named as in the source
(`rawPrefix` is the variable `prefix`). -/
structure FlagVars where
  port : Int
  address : GoString
  initCapacity : Int
  maxCapacity : Int
  pageSize : Int
  masterToken : GoString
  dbType : GoString
  dbFile : GoString
  dbConnection : GoString
  rawPrefix : GoString
  mode : GoString
  theme : GoString
  allowForward : Bool
  baskets : arrayFlags
deriving DecidableEq, Repr

/-- The values the flags are defined with: the second argument of each
`flag.Int`, `flag.String`, `flag.Bool`, and the zero value of `var baskets`. -/
def FlagVars.defaults : FlagVars where
  port := defaultServicePort
  address := defaultServiceAddr
  initCapacity := initBasketCapacity
  maxCapacity := maxBasketCapacity
  pageSize := defaultPageSize
  masterToken := lit ""
  dbType := defaultDatabaseType
  dbFile := lit "./baskets.db"
  dbConnection := lit ""
  rawPrefix := lit ""
  mode := ModePublic
  theme := ThemeStandard
  allowForward := defaultAllowForward
  baskets := []

/-- The flags `CreateConfig` registers, one per variable. -/
inductive Flag where
  | port
  | address
  | initCapacity
  | maxCapacity
  | pageSize
  | masterToken
  | dbType
  | dbFile
  | dbConnection
  | rawPrefix
  | mode
  | theme
  | allowForward
  | baskets
deriving DecidableEq, Repr

/-- The name each flag is registered under (first argument of `flag.Int` etc.). -/
def Flag.name : Flag → GoString
  | .port => lit "p"
  | .address => lit "l"
  | .initCapacity => lit "size"
  | .maxCapacity => lit "maxsize"
  | .pageSize => lit "page"
  | .masterToken => lit "token"
  | .dbType => lit "db"
  | .dbFile => lit "file"
  | .dbConnection => lit "conn"
  | .rawPrefix => lit "prefix"
  | .mode => lit "mode"
  | .theme => lit "theme"
  | .allowForward => lit "allowforward"
  | .baskets => lit "basket"

/-- All registered flags. -/
def Flag.all : List Flag :=
  [.port, .address, .initCapacity, .maxCapacity, .pageSize, .masterToken, .dbType, .dbFile,
   .dbConnection, .rawPrefix, .mode, .theme, .allowForward, .baskets]

/-- The map `f.formal` of the flag set: the flag registered under a name. -/
def formal (name : GoString) : Option Flag :=
  Flag.all.find? (fun fl => fl.name == name)

/-- `IsBoolFlag`: true for the value made by `flag.Bool` only. -/
def Flag.IsBoolFlag : Flag → Bool
  | .allowForward => true
  | _ => false

/-- The command-line argument `-name` that names a flag. -/
def Flag.arg (fl : Flag) : GoString := lit "-" ++ fl.name

/-- Why `flag.Parse` stops with an error. -/
inductive FlagError where
  | badSyntax (arg : GoString)
  | help
  | notDefined (name : GoString)
  | invalidBoolean (value name : GoString)
  | needsArgument (name : GoString)
  | invalidValue (value name : GoString)
deriving DecidableEq, Repr

/-- `intValue.Set`: `strconv.ParseInt(s, 0, strconv.IntSize)`. -/
def intValue.Set (s : GoString) : Except NumError Int := ParseInt0 s IntSize

/-- `boolValue.Set`: `strconv.ParseBool(s)`. -/
def boolValue.Set (s : GoString) : Except NumError Bool := ParseBool s

/-- `flag.Value.Set(value)` of a registered flag: the variables after the call,
or the error it returns. `stringValue.Set` stores the string as it is. -/
def Flag.Set (fl : Flag) (value : GoString) (v : FlagVars) : Except Unit FlagVars :=
  match fl with
  | .port =>
    match intValue.Set value with
    | .ok n => .ok { v with port := n }
    | .error _ => .error ()
  | .address => .ok { v with address := value }
  | .initCapacity =>
    match intValue.Set value with
    | .ok n => .ok { v with initCapacity := n }
    | .error _ => .error ()
  | .maxCapacity =>
    match intValue.Set value with
    | .ok n => .ok { v with maxCapacity := n }
    | .error _ => .error ()
  | .pageSize =>
    match intValue.Set value with
    | .ok n => .ok { v with pageSize := n }
    | .error _ => .error ()
  | .masterToken => .ok { v with masterToken := value }
  | .dbType => .ok { v with dbType := value }
  | .dbFile => .ok { v with dbFile := value }
  | .dbConnection => .ok { v with dbConnection := value }
  | .rawPrefix => .ok { v with rawPrefix := value }
  | .mode => .ok { v with mode := value }
  | .theme => .ok { v with theme := value }
  | .allowForward =>
    match boolValue.Set value with
    | .ok b => .ok { v with allowForward := b }
    | .error _ => .error ()
  | .baskets =>
    match arrayFlags.Set v.baskets value with
    | (acc, none) => .ok { v with baskets := acc }
    | (_, some _) => .error ()

/-- The flag set while it parses: the flag variables and `f.args`, the arguments
not read yet. -/
structure FlagSet where
  vars : FlagVars
  args : List GoString
deriving DecidableEq, Repr

/-- The scan of `parseOne` for the first `=` of `name` past its first byte:
`(name, hasValue, value)` after the loop. -/
def splitEquals (name : GoString) : GoString × Bool × GoString :=
  let i := 1 + (name.drop 1).indexOf 61
  if i < name.length then (name.take i, true, name.drop (i + 1)) else (name, false, [])

/-- The second half of `FlagSet.parseOne` ("it's a flag. does it have an
argument?"): `name` is the argument without its minuses, `rest` the arguments after it. -/
def FlagSet.parseFlag (f : FlagSet) (name : GoString) (rest : List GoString) :
    Bool × Option FlagError × FlagSet :=
  match splitEquals name with
  | (name, hasValue, value) =>
    match formal name with
    | none =>
      if name = lit "help" ∨ name = lit "h" then
        (false, some FlagError.help, { f with args := rest })
      else (false, some (FlagError.notDefined name), { f with args := rest })
    | some fl =>
      if fl.IsBoolFlag = true then
        match fl.Set (if hasValue = true then value else lit "true") f.vars with
        | .error _ =>
          (false, some (FlagError.invalidBoolean value name), { f with args := rest })
        | .ok vars => (true, none, { vars := vars, args := rest })
      else
        let next : Option (GoString × List GoString) :=
          if hasValue = true then some (value, rest)
          else
            match rest with
            | [] => none
            | a :: rest1 => some (a, rest1)
        match next with
        | none => (false, some (FlagError.needsArgument name), { f with args := rest })
        | some (value, args) =>
          match fl.Set value f.vars with
          | .error _ =>
            (false, some (FlagError.invalidValue value name), { f with args := args })
          | .ok vars => (true, none, { vars := vars, args := args })

/-- `FlagSet.parseOne`: reads one flag from the front of `f.args`. Returns whether
a flag was seen, the error if there is one, and the flag set after the call. -/
def FlagSet.parseOne (f : FlagSet) : Bool × Option FlagError × FlagSet :=
  match f.args with
  | [] => (false, none, f)
  | s :: rest =>
    if s.length < 2 ∨ s.head? ≠ some 45 then (false, none, f)
    else
      let numMinuses : Nat := if s.get? 1 = some 45 then 2 else 1
      if numMinuses = 2 ∧ s.length = 2 then (false, none, { f with args := rest })
      else
        let name := s.drop numMinuses
        if name.length = 0 ∨ name.head? = some 45 ∨ name.head? = some 61 then
          (false, some (FlagError.badSyntax s), f)
        else f.parseFlag name rest

/-- The loop of `FlagSet.Parse`, at most `fuel` rounds: `continue` while a flag was
seen, `break` without error, or stop on the error. `none` when the rounds run out. -/
def FlagSet.parseLoop : Nat → FlagSet → Option (Except FlagError FlagSet)
  | 0, _ => none
  | fuel + 1, f =>
    match f.parseOne with
    | (true, _, f1) => FlagSet.parseLoop fuel f1
    | (false, none, f1) => some (.ok f1)
    | (false, some e, _) => some (.error e)

/-- `FlagSet.Parse(arguments)`: `f.args = arguments`, then `parseOne` until no flag
is seen. The result is the error that stopped the loop, or the flag set after it.
Every round that goes on takes an argument, so one round more than there are
arguments is enough (`none` would mean the rounds ran out). -/
def FlagSet.Parse (f : FlagSet) (arguments : List GoString) :
    Option (Except FlagError FlagSet) :=
  FlagSet.parseLoop (arguments.length + 1) { f with args := arguments }

/-- `flag.CommandLine` once `CreateConfig` has defined its flags (lines 59 to 80):
every variable at its default, nothing parsed yet. -/
def CommandLine : FlagSet := { vars := FlagVars.defaults, args := [] }

/-! ## `CreateConfig` -/

/-- What `CreateConfig` takes from the rest of the program: `GenerateToken`
(result: the token and the error, `none` for `nil`) and `toThemeCSS`, both
defined outside `config.go`. -/
structure Env where
  GenerateToken : Unit → GoString × Option GoString
  toThemeCSS : GoString → GoString

/-- What `CreateConfig` does besides computing its result. -/
inductive Effect where
  | callGenerateToken
  | logPrintf (message : GoString)
deriving DecidableEq, Repr

/-- How a call of `CreateConfig` ends: `flag.Parse` exits the process (the
command line flag set is `ExitOnError`: status 0 after `-h` / `-help`, else 2), or
the function returns the record, having had the listed effects in order. -/
inductive Outcome where
  | exit (status : Nat)
  | ret (config : ServerConfig) (effects : List Effect)
deriving DecidableEq, Repr

/-- `log.Printf("[info] generated master token: %s", token)`: the formatted message. -/
def generatedTokenMessage (token : GoString) : GoString :=
  lit "[info] generated master token: " ++ token

/-- `CreateConfig` creates server configuration base on application command line
arguments (`arguments` is `os.Args[1:]`). `none` only if the loop of `flag.Parse`
ran out of rounds. -/
def CreateConfig (env : Env) (arguments : List GoString) : Option Outcome :=
  match CommandLine.Parse arguments with
  | none => none
  | some (.error FlagError.help) => some (Outcome.exit 0)
  | some (.error _) => some (Outcome.exit 2)
  | some (.ok f) =>
    let v := f.vars
    let tokenAndEffects : GoString × List Effect :=
      if v.masterToken.length = 0 then
        let token := (env.GenerateToken ()).1
        (token, [Effect.callGenerateToken, Effect.logPrintf (generatedTokenMessage token)])
      else (v.masterToken, [])
    some <| Outcome.ret
      { ServerPort := v.port
        ServerAddr := v.address
        InitCapacity := v.initCapacity
        MaxCapacity := v.maxCapacity
        PageSize := v.pageSize
        MasterToken := tokenAndEffects.1
        DbType := v.dbType
        DbFile := v.dbFile
        DbConnection := v.dbConnection
        Baskets := v.baskets
        PathPrefix := normalizePrefix v.rawPrefix
        Mode := v.mode
        Theme := v.theme
        ThemeCSS := env.toThemeCSS v.theme
        AllowForward := v.allowForward }
      tokenAndEffects.2

/-- `arrayFlags.Set` applied once per element of `vs`, in order, to the accumulator
`acc`: the accumulator at the end and the first error returned, if any (the flag
package stops at an error). -/
def arrayFlags.setEach : arrayFlags → List GoString → arrayFlags × Option GoString
  | acc, [] => (acc, none)
  | acc, value :: vs =>
    match arrayFlags.Set acc value with
    | (acc1, none) => arrayFlags.setEach acc1 vs
    | (acc1, some err) => (acc1, some err)

/-- How an option is written on the command line: `-name value` in two arguments,
and `-name=value` in one for the boolean flag (a boolean flag takes no second
argument). -/
def Flag.render (opt : Flag × GoString) : List GoString :=
  if opt.1.IsBoolFlag = true then [opt.1.arg ++ lit "=" ++ opt.2] else [opt.1.arg, opt.2]

/-- The `Set` of each option of a list, in order, on the flag variables; the error
of the first value that is not accepted. -/
def Flag.setAll : List (Flag × GoString) → FlagVars → Except Unit FlagVars
  | [], v => .ok v
  | opt :: opts, v =>
    match opt.1.Set opt.2 v with
    | .error e => .error e
    | .ok v1 => Flag.setAll opts v1

/-- An environment whose token generator succeeds with the token `tok`. -/
def Env.sample : Env where
  GenerateToken := fun _ => (lit "tok", none)
  toThemeCSS := fun theme => lit "<!-- " ++ theme ++ lit " -->"

/-- An environment whose token generator fails: it returns the empty string and an
error. -/
def Env.failing : Env where
  GenerateToken := fun _ => (lit "", some (lit "failed to generate token"))
  toThemeCSS := fun theme => lit "<!-- " ++ theme ++ lit " -->"

/-! ## Facts about the flag loop -/

/-- The second half of `parseOne`, when it sees a flag, leaves at most `rest`. -/
theorem FlagSet.parseFlag_seen_le (f f1 : FlagSet) (name : GoString) (rest : List GoString)
    (e : Option FlagError) (h : f.parseFlag name rest = (true, e, f1)) :
    f1.args.length ≤ rest.length := by
  unfold FlagSet.parseFlag at h
  repeat' (split at h)
  all_goals first
    | (simp at h; done)
    | (simp only [Prod.mk.injEq, true_and] at h; obtain ⟨_, rfl⟩ := h; simp)
    | (simp only [] at h
       split at h
       · simp at h
       · simp only [Prod.mk.injEq, true_and] at h; obtain ⟨_, rfl⟩ := h; simp)

/-- A round of `parseOne` that sees a flag takes at least one argument off `f.args`. -/
theorem FlagSet.parseOne_seen_lt (f f1 : FlagSet) (e : Option FlagError)
    (h : f.parseOne = (true, e, f1)) : f1.args.length < f.args.length := by
  unfold FlagSet.parseOne at h
  split at h
  · simp at h
  · rename_i s rest hargs
    rw [hargs]
    simp only [] at h
    repeat' (split at h)
    all_goals first
      | (simp at h; done)
      | (have hle := FlagSet.parseFlag_seen_le f f1 _ rest e h
         simp only [List.length_cons]
         omega)

/-- With more rounds than arguments the loop of `Parse` ends. -/
theorem FlagSet.parseLoop_isSome (fuel : Nat) :
    ∀ f : FlagSet, f.args.length < fuel → (FlagSet.parseLoop fuel f).isSome = true := by
  induction fuel with
  | zero => intro f h; omega
  | succ n ih =>
    intro f h
    unfold FlagSet.parseLoop
    split
    · rename_i e f1 hp
      have hlt := FlagSet.parseOne_seen_lt f f1 e hp
      exact ih f1 (by omega)
    · rfl
    · rfl

/-- The loop gives the same result for any two numbers of rounds above the number
of arguments. -/
theorem FlagSet.parseLoop_fuel (n : Nat) : ∀ (m : Nat) (f : FlagSet),
    f.args.length < n → f.args.length < m → FlagSet.parseLoop n f = FlagSet.parseLoop m f := by
  induction n with
  | zero => intro m f h; omega
  | succ n ih =>
    intro m f hn hm
    cases m with
    | zero => omega
    | succ m =>
      unfold FlagSet.parseLoop
      split
      · rename_i e f1 hp
        have := FlagSet.parseOne_seen_lt f f1 e hp
        exact ih m f1 (by omega) (by omega)
      · rfl
      · rfl

/-- Any number of rounds above the number of arguments gives the result of `Parse`. -/
theorem FlagSet.parseLoop_eq_Parse (f : FlagSet) (a : List GoString) (n : Nat)
    (h : a.length < n) : FlagSet.parseLoop n { f with args := a } = f.Parse a :=
  FlagSet.parseLoop_fuel _ _ _ h (Nat.lt_succ_self _)

/-- `Parse` never runs out of rounds. -/
theorem FlagSet.Parse_isSome (f : FlagSet) (a : List GoString) :
    (f.Parse a).isSome = true :=
  FlagSet.parseLoop_isSome _ _ (Nat.lt_succ_self _)

/-- One round that sees a flag: `Parse` goes on from the flag set it leaves. -/
theorem FlagSet.Parse_seen (f f1 : FlagSet) (a : List GoString) (e : Option FlagError)
    (h : FlagSet.parseOne { f with args := a } = (true, e, f1)) :
    f.Parse a = f1.Parse f1.args := by
  have hlt := FlagSet.parseOne_seen_lt _ f1 e h
  have h1 := FlagSet.parseLoop_eq_Parse f a (a.length + 1) (Nat.lt_succ_self _)
  have h2 := FlagSet.parseLoop_eq_Parse f1 f1.args a.length hlt
  rw [FlagSet.parseLoop, h] at h1
  simp only at h1
  have h3 : ({ f1 with args := f1.args } : FlagSet) = f1 := rfl
  rw [h3] at h2
  rw [← h1, h2]

/-- A round that sees no flag and has no error ends `Parse`. -/
theorem FlagSet.Parse_stop (f f1 : FlagSet) (a : List GoString)
    (h : FlagSet.parseOne { f with args := a } = (false, none, f1)) :
    f.Parse a = some (.ok f1) := by
  have h1 := FlagSet.parseLoop_eq_Parse f a (a.length + 1) (Nat.lt_succ_self _)
  rw [FlagSet.parseLoop, h] at h1
  exact h1.symm

/-- A round of `parseOne` at `-name value` for a flag that is not boolean. -/
theorem FlagSet.parseOne_value (fl : Flag) (hb : fl.IsBoolFlag = false) (vars : FlagVars)
    (value : GoString) (rest : List GoString) :
    FlagSet.parseOne { vars := vars, args := fl.arg :: value :: rest } =
      match fl.Set value vars with
      | .error _ => (false, some (FlagError.invalidValue value fl.name),
          { vars := vars, args := rest })
      | .ok vars1 => (true, none, { vars := vars1, args := rest }) := by
  cases fl <;> first | rfl | simp [Flag.IsBoolFlag] at hb

theorem lit_allowforward_append (value : GoString) :
    lit "-allowforward=" ++ value =
      45 :: 97 :: 108 :: 108 :: 111 :: 119 :: 102 :: 111 :: 114 :: 119 :: 97 :: 114 :: 100 ::
        61 :: value := rfl

theorem splitEquals_allowforward (value : GoString) :
    splitEquals (97 :: 108 :: 108 :: 111 :: 119 :: 102 :: 111 :: 114 :: 119 :: 97 :: 114 ::
        100 :: 61 :: value) = (lit "allowforward", true, value) := by
  simp [splitEquals, List.indexOf_cons]
  rfl

theorem formal_allowforward : formal (lit "allowforward") = some Flag.allowForward := by
  decide

/-- A round of `parseOne` at `-allowforward=value`. -/
theorem FlagSet.parseOne_allowforward (vars : FlagVars) (value : GoString)
    (rest : List GoString) :
    FlagSet.parseOne { vars := vars, args := (lit "-allowforward=" ++ value) :: rest } =
      match boolValue.Set value with
      | .ok b1 => (true, none, { vars := { vars with allowForward := b1 }, args := rest })
      | .error _ => (false, some (FlagError.invalidBoolean value (lit "allowforward")),
          { vars := vars, args := rest }) := by
  rw [lit_allowforward_append]
  simp [FlagSet.parseOne, FlagSet.parseFlag, splitEquals_allowforward]
  rw [if_neg (by omega)]
  simp only [formal_allowforward, Flag.IsBoolFlag, Flag.Set]
  cases boolValue.Set value <;> rfl

/-- `Parse` reads the variables of the flag set, not its old arguments. -/
theorem FlagSet.Parse_vars (f : FlagSet) (a : List GoString) :
    f.Parse a = FlagSet.Parse { vars := f.vars, args := [] } a := rfl

/-- `Parse` over `-name value` followed by `rest`, for a flag that is not boolean
and a value its `Set` accepts: the variable is set and `Parse` reads `rest`. -/
theorem FlagSet.Parse_value (fl : Flag) (hb : fl.IsBoolFlag = false) (vars vars1 : FlagVars)
    (value : GoString) (rest : List GoString) (hs : fl.Set value vars = .ok vars1) :
    FlagSet.Parse { vars := vars, args := [] } (fl.arg :: value :: rest) =
      FlagSet.Parse { vars := vars1, args := [] } rest := by
  have h := FlagSet.parseOne_value fl hb vars value rest
  rw [hs] at h
  exact FlagSet.Parse_seen { vars := vars, args := [] } { vars := vars1, args := rest } _ none h

/-- `Parse` over `-allowforward=value` followed by `rest`, for a value `ParseBool` accepts. -/
theorem FlagSet.Parse_allowforward (vars : FlagVars) (value : GoString) (b : Bool)
    (rest : List GoString) (hs : boolValue.Set value = .ok b) :
    FlagSet.Parse { vars := vars, args := [] } ((lit "-allowforward=" ++ value) :: rest) =
      FlagSet.Parse { vars := { vars with allowForward := b }, args := [] } rest := by
  have h : FlagSet.parseOne { vars := vars, args := (lit "-allowforward=" ++ value) :: rest } =
      (true, none, { vars := { vars with allowForward := b }, args := rest }) := by
    rw [FlagSet.parseOne_allowforward, hs]
  exact FlagSet.Parse_seen { vars := vars, args := [] }
    { vars := { vars with allowForward := b }, args := rest } _ none h

/-- `Parse` over no arguments leaves the variables as they are. -/
theorem FlagSet.Parse_nil (vars : FlagVars) :
    FlagSet.Parse { vars := vars, args := [] } [] =
      some (.ok { vars := vars, args := [] }) := rfl

theorem Flag.Set_port (s : GoString) (n : Int) (v : FlagVars) (h : intValue.Set s = .ok n) :
    Flag.port.Set s v = .ok { v with port := n } := by
  simp only [Flag.Set, h]

theorem Flag.Set_initCapacity (s : GoString) (n : Int) (v : FlagVars)
    (h : intValue.Set s = .ok n) :
    Flag.initCapacity.Set s v = .ok { v with initCapacity := n } := by
  simp only [Flag.Set, h]

theorem Flag.Set_maxCapacity (s : GoString) (n : Int) (v : FlagVars)
    (h : intValue.Set s = .ok n) :
    Flag.maxCapacity.Set s v = .ok { v with maxCapacity := n } := by
  simp only [Flag.Set, h]

theorem Flag.Set_pageSize (s : GoString) (n : Int) (v : FlagVars)
    (h : intValue.Set s = .ok n) :
    Flag.pageSize.Set s v = .ok { v with pageSize := n } := by
  simp only [Flag.Set, h]

/-- `Parse` over `-basket v` for each `v` of `vs` appends `vs` to the accumulator. -/
theorem FlagSet.Parse_baskets (vs : List GoString) : ∀ vars : FlagVars,
    FlagSet.Parse { vars := vars, args := [] } (vs.flatMap fun v => [lit "-basket", v]) =
      some (.ok { vars := { vars with baskets := vars.baskets ++ vs }, args := [] }) := by
  induction vs with
  | nil => intro vars; simp only [List.flatMap_nil, List.append_nil]; rfl
  | cons v vs ih =>
    intro vars
    have h := FlagSet.Parse_value Flag.baskets rfl vars { vars with baskets := vars.baskets ++ [v] }
      v (vs.flatMap fun v => [lit "-basket", v]) rfl
    have h2 := ih { vars with baskets := vars.baskets ++ [v] }
    simp only [List.append_assoc, List.singleton_append] at h2
    rw [← h2, ← h]
    rfl

/-- `Parse` over a list of options, each written as `Flag.render` writes it and each
with a value its `Set` accepts: the variables are set in order, nothing is left. -/
theorem FlagSet.Parse_render (opts : List (Flag × GoString)) :
    ∀ vars vars1 : FlagVars, Flag.setAll opts vars = .ok vars1 →
      FlagSet.Parse { vars := vars, args := [] } (opts.flatMap Flag.render) =
        some (.ok { vars := vars1, args := [] }) := by
  induction opts with
  | nil =>
    intro vars vars1 h
    simp only [Flag.setAll, Except.ok.injEq] at h
    subst h
    rfl
  | cons opt opts ih =>
    intro vars vars1 h
    obtain ⟨fl, value⟩ := opt
    simp only [Flag.setAll] at h
    cases hset : fl.Set value vars with
    | error e => rw [hset] at h; simp at h
    | ok v1 =>
      rw [hset] at h
      simp only at h
      rw [List.flatMap_cons, ← ih v1 vars1 h]
      cases hb : fl.IsBoolFlag with
      | false =>
        simp only [Flag.render, hb, Bool.false_eq_true, if_false]
        exact FlagSet.Parse_value fl hb vars v1 value _ hset
      | true =>
        have hfl : fl = Flag.allowForward := by
          cases fl <;> first | rfl | simp [Flag.IsBoolFlag] at hb
        subst hfl
        simp only [Flag.render, Flag.IsBoolFlag, if_true]
        simp only [Flag.Set] at hset
        cases hbv : boolValue.Set value with
        | error e => rw [hbv] at hset; simp at hset
        | ok b =>
          rw [hbv] at hset
          simp only [Except.ok.injEq] at hset
          subst hset
          exact FlagSet.Parse_allowforward vars value b _ hbv

/-! ## `CreateConfig` after a successful `flag.Parse` -/

/-- When `CreateConfig` returns, `flag.Parse` succeeded, and the record and the
effects are these functions of the parsed variables. -/
theorem CreateConfig_ret_inv (env : Env) (args : List GoString) (cfg : ServerConfig)
    (eff : List Effect) (h : CreateConfig env args = some (Outcome.ret cfg eff)) :
    ∃ f : FlagSet, CommandLine.Parse args = some (.ok f) ∧
      cfg =
        { ServerPort := f.vars.port
          ServerAddr := f.vars.address
          InitCapacity := f.vars.initCapacity
          MaxCapacity := f.vars.maxCapacity
          PageSize := f.vars.pageSize
          MasterToken :=
            if f.vars.masterToken = [] then (env.GenerateToken ()).1 else f.vars.masterToken
          DbType := f.vars.dbType
          DbFile := f.vars.dbFile
          DbConnection := f.vars.dbConnection
          Baskets := f.vars.baskets
          PathPrefix := normalizePrefix f.vars.rawPrefix
          Mode := f.vars.mode
          Theme := f.vars.theme
          ThemeCSS := env.toThemeCSS f.vars.theme
          AllowForward := f.vars.allowForward } ∧
      eff =
        if f.vars.masterToken = [] then
          [Effect.callGenerateToken,
            Effect.logPrintf (generatedTokenMessage (env.GenerateToken ()).1)]
        else [] := by
  unfold CreateConfig at h
  split at h
  · simp at h
  · simp at h
  · simp at h
  · rename_i f hparse
    refine ⟨f, hparse, ?_⟩
    simp only [Option.some.injEq, Outcome.ret.injEq] at h
    obtain ⟨h1, h2⟩ := h
    subst h1 h2
    by_cases ht : f.vars.masterToken = []
    · simp [ht]
    · simp [ht]

/-- When `flag.Parse` succeeds, `CreateConfig` returns this record with these effects. -/
theorem CreateConfig_of_Parse (env : Env) (args : List GoString) (f : FlagSet)
    (h : CommandLine.Parse args = some (.ok f)) :
    CreateConfig env args = some (Outcome.ret
        { ServerPort := f.vars.port
          ServerAddr := f.vars.address
          InitCapacity := f.vars.initCapacity
          MaxCapacity := f.vars.maxCapacity
          PageSize := f.vars.pageSize
          MasterToken :=
            if f.vars.masterToken = [] then (env.GenerateToken ()).1 else f.vars.masterToken
          DbType := f.vars.dbType
          DbFile := f.vars.dbFile
          DbConnection := f.vars.dbConnection
          Baskets := f.vars.baskets
          PathPrefix := normalizePrefix f.vars.rawPrefix
          Mode := f.vars.mode
          Theme := f.vars.theme
          ThemeCSS := env.toThemeCSS f.vars.theme
          AllowForward := f.vars.allowForward }
        (if f.vars.masterToken = [] then
          [Effect.callGenerateToken,
            Effect.logPrintf (generatedTokenMessage (env.GenerateToken ()).1)]
        else [])) := by
  unfold CreateConfig
  rw [h]
  by_cases ht : f.vars.masterToken = []
  · simp [ht]
  · simp [ht]

/-- `CreateConfig` always ends, with an exit or a record: the loop of `flag.Parse`
never runs out of rounds. -/
theorem CreateConfig_isSome (env : Env) (args : List GoString) :
    (CreateConfig env args).isSome = true := by
  have h := FlagSet.Parse_isSome CommandLine args
  unfold CreateConfig
  split
  · rename_i hnone
    rw [hnone] at h
    simp at h
  · rfl
  · rfl
  · rfl

/-- The two cases of `normalizePrefix`. -/
theorem normalizePrefix_cases (raw : GoString) :
    ((raw = [] ∨ raw.head? = some 47) ∧ normalizePrefix raw = raw) ∨
    (raw ≠ [] ∧ raw.head? ≠ some 47 ∧ normalizePrefix raw = lit "/" ++ raw) := by
  rcases raw with _ | ⟨c, cs⟩
  · left; exact ⟨Or.inl rfl, rfl⟩
  · by_cases hc : c = 47
    · left
      subst hc
      exact ⟨Or.inr rfl, by simp [normalizePrefix]⟩
    · right
      refine ⟨by simp, by simp [hc], ?_⟩
      simp [normalizePrefix, hc]

/-! ## The claims -/

/-- C1: for every non-empty string whose first byte is not `/`, `normalizePrefix`
returns exactly `/` followed by the whole string. -/
theorem normalizePrefix_prepends (p : GoString) (hne : p ≠ []) (hsep : p.head? ≠ some 47) :
    normalizePrefix p = lit "/" ++ p := by
  have hlen : p.length > 0 := List.length_pos.mpr hne
  simp only [normalizePrefix, hlen, hsep, ne_eq, not_false_eq_true, and_self, if_true]

/-- Instance of the C1 theorem at `api`. -/
theorem normalizePrefix_prepends_witness :
    lit "api" ≠ [] ∧ (lit "api").head? ≠ some 47 ∧ normalizePrefix (lit "api") = lit "/api" :=
  ⟨by decide, by decide, normalizePrefix_prepends (lit "api") (by decide) (by decide)⟩

/-- C2: a string that is empty or starts with `/` is returned unchanged by
`normalizePrefix`, and so `normalizePrefix` is idempotent on every string. -/
theorem normalizePrefix_idempotent :
    (∀ p : GoString, p = [] ∨ p.head? = some 47 → normalizePrefix p = p) ∧
    (∀ p : GoString, normalizePrefix (normalizePrefix p) = normalizePrefix p) := by
  have hfix : ∀ p : GoString, p = [] ∨ p.head? = some 47 → normalizePrefix p = p := by
    intro p hp
    rcases hp with hp | hp
    · subst hp; rfl
    · simp [normalizePrefix, hp]
  refine ⟨hfix, ?_⟩
  intro p
  apply hfix
  by_cases hp : p.length > 0 ∧ p.head? ≠ some 47
  · right
    simp only [normalizePrefix, hp, ne_eq, not_false_eq_true, and_self, if_true]
    rfl
  · simp only [normalizePrefix, hp, if_false]
    rcases p with _ | ⟨c, cs⟩
    · left; rfl
    · right
      simp only [List.length_cons, gt_iff_lt, Nat.zero_lt_succ, true_and, not_not] at hp
      exact hp

/-- Instances of the C2 theorem at `/api`, the empty string and `api`. -/
theorem normalizePrefix_idempotent_witness :
    normalizePrefix (lit "/api") = lit "/api" ∧ normalizePrefix (lit "") = lit "" ∧
    normalizePrefix (normalizePrefix (lit "api")) = normalizePrefix (lit "api") :=
  ⟨normalizePrefix_idempotent.1 (lit "/api") (Or.inr (by decide)),
   normalizePrefix_idempotent.1 (lit "") (Or.inl (by decide)),
   normalizePrefix_idempotent.2 (lit "api")⟩

/-- C3, as stated, fails: with `-prefix //x` the record's `PathPrefix` is `//x`,
which begins with two separators. -/
theorem pathPrefix_double_separator :
    ∃ cfg eff, CreateConfig Env.sample [lit "-prefix", lit "//x"] = some (Outcome.ret cfg eff) ∧
      cfg.PathPrefix ≠ [] ∧ lit "//" <+: cfg.PathPrefix :=
  ⟨_, _, rfl, by decide, by decide⟩

/-- C3, amended: for every raw value of the prefix option the record is built, and
for every command line on which `CreateConfig` returns, with `raw` the value of the
prefix flag after parsing: `PathPrefix` is `raw` or `/` followed by `raw` (so `raw`
is a suffix of it and nothing is added at the end), it is empty or starts with `/`,
and it begins with two separators only if `raw` does. -/
theorem pathPrefix_shape (env : Env) :
    (∀ raw : GoString, ∃ cfg eff,
      CreateConfig env [lit "-prefix", raw] = some (Outcome.ret cfg eff) ∧
        cfg.PathPrefix = normalizePrefix raw) ∧
    (∀ (args : List GoString) (cfg : ServerConfig) (eff : List Effect),
      CreateConfig env args = some (Outcome.ret cfg eff) →
      ∃ f : FlagSet, CommandLine.Parse args = some (.ok f) ∧
        (cfg.PathPrefix = f.vars.rawPrefix ∨ cfg.PathPrefix = lit "/" ++ f.vars.rawPrefix) ∧
        (cfg.PathPrefix = [] ∨ cfg.PathPrefix.head? = some 47) ∧
        f.vars.rawPrefix <:+ cfg.PathPrefix ∧
        (lit "//" <+: cfg.PathPrefix → lit "//" <+: f.vars.rawPrefix)) := by
  constructor
  · intro raw
    have hp : CommandLine.Parse [lit "-prefix", raw] =
        some (.ok { vars := { FlagVars.defaults with rawPrefix := raw }, args := [] }) :=
      FlagSet.Parse_value Flag.rawPrefix rfl FlagVars.defaults _ raw [] rfl
    exact ⟨_, _, CreateConfig_of_Parse env _ _ hp, rfl⟩
  · intro args cfg eff h
    obtain ⟨f, hparse, hcfg, _⟩ := CreateConfig_ret_inv env args cfg eff h
    refine ⟨f, hparse, ?_⟩
    have hpp : cfg.PathPrefix = normalizePrefix f.vars.rawPrefix := by rw [hcfg]
    rw [hpp]
    rcases normalizePrefix_cases f.vars.rawPrefix with ⟨hraw, hn⟩ | ⟨hne, hhead, hn⟩
    · rw [hn]
      refine ⟨Or.inl rfl, hraw, List.suffix_refl _, fun hx => hx⟩
    · rw [hn]
      refine ⟨Or.inr rfl, Or.inr rfl, List.suffix_append _ _, ?_⟩
      intro hx
      exfalso
      rcases hraw : f.vars.rawPrefix with _ | ⟨c, cs⟩
      · exact hne hraw
      · rw [hraw] at hx hhead
        have h2 : lit "//" = [47, 47] := rfl
        have h1 : lit "/" = [47] := rfl
        rw [h2, h1] at hx
        simp only [List.singleton_append, List.cons_prefix_cons, true_and] at hx
        apply hhead
        simp [hx.1]

/-- Instance of the amended C3 theorem at `-prefix api`. -/
theorem pathPrefix_shape_witness :
    ∃ cfg eff, CreateConfig Env.sample [lit "-prefix", lit "api"] = some (Outcome.ret cfg eff) ∧
      cfg.PathPrefix = lit "/api" :=
  (pathPrefix_shape Env.sample).1 (lit "api")

/-- `setEach` from any accumulator appends the values and returns no error. -/
theorem arrayFlags.setEach_append (vs : List GoString) :
    ∀ acc : arrayFlags, arrayFlags.setEach acc vs = (acc ++ vs, none) := by
  induction vs with
  | nil => intro acc; simp [arrayFlags.setEach]
  | cons v vs ih => intro acc; simp [arrayFlags.setEach, arrayFlags.Set, ih]

/-- C4: `arrayFlags.Set` applied once per element of `vs`, in order, from the empty
accumulator, returns no error and leaves exactly `vs`; the command line
`-basket v` for each `v` of `vs` gives a record whose `Baskets` is `vs` (for
`-basket a -basket b -basket a`: `[a, b, a]`), and no occurrence gives the empty list. -/
theorem baskets_keep_order_and_duplicates (env : Env) (vs : List GoString) :
    arrayFlags.setEach [] vs = (vs, none) ∧
    (∃ cfg eff,
      CreateConfig env (vs.flatMap fun v => [lit "-basket", v]) = some (Outcome.ret cfg eff) ∧
        cfg.Baskets = vs) ∧
    (∃ cfg eff, CreateConfig env
        [lit "-basket", lit "a", lit "-basket", lit "b", lit "-basket", lit "a"] =
          some (Outcome.ret cfg eff) ∧ cfg.Baskets = [lit "a", lit "b", lit "a"]) ∧
    (∃ cfg eff, CreateConfig env [] = some (Outcome.ret cfg eff) ∧ cfg.Baskets = []) := by
  have hall : ∀ ws : List GoString, ∃ cfg eff,
      CreateConfig env (ws.flatMap fun v => [lit "-basket", v]) = some (Outcome.ret cfg eff) ∧
        cfg.Baskets = ws := by
    intro ws
    have hp := FlagSet.Parse_baskets ws FlagVars.defaults
    refine ⟨_, _, CreateConfig_of_Parse env _ _ hp, ?_⟩
    show FlagVars.defaults.baskets ++ ws = ws
    rfl
  refine ⟨?_, hall vs, hall [lit "a", lit "b", lit "a"], hall []⟩
  rw [arrayFlags.setEach_append]
  rfl

/-- Instance of the C4 theorem at the basket names `a`, `b`, `a`. -/
theorem baskets_keep_order_and_duplicates_witness :
    arrayFlags.setEach [] [lit "a", lit "b", lit "a"] = ([lit "a", lit "b", lit "a"], none) :=
  (baskets_keep_order_and_duplicates Env.sample [lit "a", lit "b", lit "a"]).1

/-- C5, as stated, fails: with no token option and a generator that fails (empty
string and an error), the record's `MasterToken` is empty. -/
theorem masterToken_empty_when_generator_fails :
    ∃ cfg eff, CreateConfig Env.failing [] = some (Outcome.ret cfg eff) ∧ cfg.MasterToken = [] :=
  ⟨_, _, rfl, rfl⟩

/-- C5, amended: on every command line on which `CreateConfig` returns,
`MasterToken` is non-empty when the token flag holds a non-empty string, and also
when the generator returns a non-empty string; it is empty exactly when the token
flag is empty and the generator returns the empty string. -/
theorem masterToken_nonempty (env : Env) (args : List GoString) (cfg : ServerConfig)
    (eff : List Effect) (h : CreateConfig env args = some (Outcome.ret cfg eff)) :
    ∃ f : FlagSet, CommandLine.Parse args = some (.ok f) ∧
      (f.vars.masterToken ≠ [] → cfg.MasterToken ≠ []) ∧
      ((env.GenerateToken ()).1 ≠ [] → cfg.MasterToken ≠ []) ∧
      (cfg.MasterToken = [] ↔ f.vars.masterToken = [] ∧ (env.GenerateToken ()).1 = []) := by
  obtain ⟨f, hparse, hcfg, _⟩ := CreateConfig_ret_inv env args cfg eff h
  refine ⟨f, hparse, ?_⟩
  have ht : cfg.MasterToken =
      if f.vars.masterToken = [] then (env.GenerateToken ()).1 else f.vars.masterToken := by
    rw [hcfg]
  rw [ht]
  by_cases hm : f.vars.masterToken = []
  · simp [hm]
  · simp [hm]

/-- Instance of the amended C5 theorem at `-token SECRET123` with a failing generator. -/
theorem masterToken_nonempty_witness :
    ∃ f : FlagSet, CommandLine.Parse [lit "-token", lit "SECRET123"] = some (.ok f) ∧
      (f.vars.masterToken ≠ [] → lit "SECRET123" ≠ []) ∧
      ((Env.failing.GenerateToken ()).1 ≠ [] → lit "SECRET123" ≠ []) ∧
      (lit "SECRET123" = [] ↔
        f.vars.masterToken = [] ∧ (Env.failing.GenerateToken ()).1 = []) :=
  masterToken_nonempty Env.failing [lit "-token", lit "SECRET123"]
    { ServerPort := 55555
      ServerAddr := lit "127.0.0.1"
      InitCapacity := 200
      MaxCapacity := 2000
      PageSize := 20
      MasterToken := lit "SECRET123"
      DbType := lit "memory"
      DbFile := lit "./baskets.db"
      DbConnection := lit ""
      Baskets := []
      PathPrefix := lit ""
      Mode := lit "public"
      Theme := lit "standard"
      ThemeCSS := lit "<!-- standard -->"
      AllowForward := false }
    [] (by decide)

/-- C6: a non-empty string `s` given as `-token s` becomes `MasterToken` as it is, and
`CreateConfig` has no effect (no call of the generator, no log line); with no
arguments, or with `-token` and the empty string, the generator is called once,
`MasterToken` is the string it returned, and the one message logged contains it. The
same holds on every command line `flag.Parse` accepts, by the value of the token flag. -/
theorem masterToken_supplied_or_generated (env : Env) :
    (∀ s : GoString, s ≠ [] → ∃ cfg,
      CreateConfig env [lit "-token", s] = some (Outcome.ret cfg []) ∧ cfg.MasterToken = s) ∧
    (∀ args : List GoString, args = [] ∨ args = [lit "-token", lit ""] → ∃ cfg,
      CreateConfig env args = some (Outcome.ret cfg
        [Effect.callGenerateToken,
          Effect.logPrintf (generatedTokenMessage (env.GenerateToken ()).1)]) ∧
      cfg.MasterToken = (env.GenerateToken ()).1) ∧
    (∀ (args : List GoString) (f : FlagSet), CommandLine.Parse args = some (.ok f) →
      ∃ cfg eff, CreateConfig env args = some (Outcome.ret cfg eff) ∧
        (f.vars.masterToken ≠ [] → cfg.MasterToken = f.vars.masterToken ∧ eff = []) ∧
        (f.vars.masterToken = [] → cfg.MasterToken = (env.GenerateToken ()).1 ∧
          eff = [Effect.callGenerateToken,
            Effect.logPrintf (generatedTokenMessage (env.GenerateToken ()).1)])) ∧
    (∀ token : GoString, token <:+: generatedTokenMessage token) := by
  refine ⟨?_, ?_, ?_, ?_⟩
  · intro s hs
    have hp : CommandLine.Parse [lit "-token", s] =
        some (.ok { vars := { FlagVars.defaults with masterToken := s }, args := [] }) :=
      FlagSet.Parse_value Flag.masterToken rfl FlagVars.defaults _ s [] rfl
    have hc := CreateConfig_of_Parse env _ _ hp
    simp only [hs, if_false] at hc
    exact ⟨_, hc, rfl⟩
  · intro args hargs
    rcases hargs with hargs | hargs
    · subst hargs
      exact ⟨_, rfl, rfl⟩
    · subst hargs
      exact ⟨_, rfl, rfl⟩
  · intro args f hparse
    have hc := CreateConfig_of_Parse env args f hparse
    refine ⟨_, _, hc, ?_, ?_⟩
    · intro hne
      simp [hne]
    · intro he
      simp [he]
  · intro token
    exact ⟨lit "[info] generated master token: ", [], by simp [generatedTokenMessage]⟩

/-- Instances of the C6 theorem at `-token SECRET123` and at no arguments. -/
theorem masterToken_supplied_or_generated_witness :
    (∃ cfg, CreateConfig Env.sample [lit "-token", lit "SECRET123"] = some (Outcome.ret cfg []) ∧
      cfg.MasterToken = lit "SECRET123") ∧
    (∃ cfg, CreateConfig Env.sample [] = some (Outcome.ret cfg
        [Effect.callGenerateToken,
          Effect.logPrintf (generatedTokenMessage (Env.sample.GenerateToken ()).1)]) ∧
      cfg.MasterToken = (Env.sample.GenerateToken ()).1) :=
  ⟨(masterToken_supplied_or_generated Env.sample).1 (lit "SECRET123") (by decide),
   (masterToken_supplied_or_generated Env.sample).2.1 [] (Or.inl rfl)⟩

/-- C7, as stated, fails: with no arguments the record's `MasterToken` is the
generated token, not the empty default of the token option. -/
theorem defaults_masterToken_generated :
    ∃ cfg eff, CreateConfig Env.sample [] = some (Outcome.ret cfg eff) ∧
      cfg.MasterToken = lit "tok" ∧ cfg.MasterToken ≠ lit "" :=
  ⟨_, _, rfl, rfl, by decide⟩

/-- C7, amended: with no arguments `CreateConfig` returns the record whose fields are
the documented defaults, except that `MasterToken` is the string the generator
returned (and `ThemeCSS` is `toThemeCSS` of the default theme). -/
theorem defaults_record (env : Env) :
    CreateConfig env [] = some (Outcome.ret
      { ServerPort := 55555
        ServerAddr := lit "127.0.0.1"
        InitCapacity := 200
        MaxCapacity := 2000
        PageSize := 20
        MasterToken := (env.GenerateToken ()).1
        DbType := lit "memory"
        DbFile := lit "./baskets.db"
        DbConnection := lit ""
        Baskets := []
        PathPrefix := lit ""
        Mode := lit "public"
        Theme := lit "standard"
        ThemeCSS := env.toThemeCSS (lit "standard")
        AllowForward := false }
      [Effect.callGenerateToken,
        Effect.logPrintf (generatedTokenMessage (env.GenerateToken ()).1)]) :=
  rfl

/-- Instance of the amended C7 theorem at a generator that returns `tok`. -/
theorem defaults_record_witness :
    ∃ cfg eff, CreateConfig Env.sample [] = some (Outcome.ret cfg eff) ∧
      cfg.ServerPort = 55555 ∧ cfg.MasterToken = lit "tok" :=
  ⟨_, _, defaults_record Env.sample, rfl, rfl⟩

/-- C8, as stated, fails for two options: `-prefix api` is stored as `/api`, and
`-token` with the empty string is replaced by the generated token. -/
theorem supplied_value_transformed :
    (∃ cfg eff, CreateConfig Env.sample [lit "-prefix", lit "api"] = some (Outcome.ret cfg eff) ∧
      cfg.PathPrefix = lit "/api" ∧ cfg.PathPrefix ≠ lit "api") ∧
    (∃ cfg eff, CreateConfig Env.sample [lit "-token", lit ""] = some (Outcome.ret cfg eff) ∧
      cfg.MasterToken = lit "tok" ∧ cfg.MasterToken ≠ lit "") :=
  ⟨⟨_, _, rfl, rfl, by decide⟩, ⟨_, _, rfl, rfl, by decide⟩⟩

/-- C8, amended: every field of the record is the value of its option coerced to
the field's type (`ParseInt` for `p`, `size`, `maxsize`, `page`, `ParseBool` for
`allowforward`, the string itself otherwise), with no check between fields, except
that `PathPrefix` is `normalizePrefix` of the value and `MasterToken` is the value
when it is non-empty and the generated token otherwise. First for any list of
options, in any order, each with a value its type accepts (`v` is the variables
after the `Set` of each); then written out for all thirteen options given at once. -/
theorem supplied_options_record (env : Env) :
    (∀ (opts : List (Flag × GoString)) (v : FlagVars),
      Flag.setAll opts FlagVars.defaults = .ok v →
      CreateConfig env (opts.flatMap Flag.render) =
      some (Outcome.ret
        { ServerPort := v.port
          ServerAddr := v.address
          InitCapacity := v.initCapacity
          MaxCapacity := v.maxCapacity
          PageSize := v.pageSize
          MasterToken := if v.masterToken = [] then (env.GenerateToken ()).1 else v.masterToken
          DbType := v.dbType
          DbFile := v.dbFile
          DbConnection := v.dbConnection
          Baskets := v.baskets
          PathPrefix := normalizePrefix v.rawPrefix
          Mode := v.mode
          Theme := v.theme
          ThemeCSS := env.toThemeCSS v.theme
          AllowForward := v.allowForward }
        (if v.masterToken = [] then
          [Effect.callGenerateToken,
            Effect.logPrintf (generatedTokenMessage (env.GenerateToken ()).1)]
        else []))) ∧
    (∀ (sp ss sm sg sb : GoString) (p size maxsize page : Int) (b : Bool)
      (l token db file conn pfx mode theme : GoString),
      intValue.Set sp = .ok p → intValue.Set ss = .ok size →
      intValue.Set sm = .ok maxsize → intValue.Set sg = .ok page →
      boolValue.Set sb = .ok b →
      CreateConfig env
        [lit "-p", sp, lit "-l", l, lit "-size", ss, lit "-maxsize", sm, lit "-page", sg,
         lit "-token", token, lit "-db", db, lit "-file", file, lit "-conn", conn,
         lit "-prefix", pfx, lit "-mode", mode, lit "-theme", theme,
         lit "-allowforward=" ++ sb] =
      some (Outcome.ret
        { ServerPort := p
          ServerAddr := l
          InitCapacity := size
          MaxCapacity := maxsize
          PageSize := page
          MasterToken := if token = [] then (env.GenerateToken ()).1 else token
          DbType := db
          DbFile := file
          DbConnection := conn
          Baskets := []
          PathPrefix := normalizePrefix pfx
          Mode := mode
          Theme := theme
          ThemeCSS := env.toThemeCSS theme
          AllowForward := b }
        (if token = [] then
          [Effect.callGenerateToken,
            Effect.logPrintf (generatedTokenMessage (env.GenerateToken ()).1)]
        else []))) := by
  constructor
  · intro opts v hset
    exact CreateConfig_of_Parse env _ _ (FlagSet.Parse_render opts FlagVars.defaults v hset)
  · intro sp ss sm sg sb p size maxsize page b l token db file conn pfx mode theme
      hp hs hm hg hb
    have hparse : CommandLine.Parse
        [lit "-p", sp, lit "-l", l, lit "-size", ss, lit "-maxsize", sm, lit "-page", sg,
         lit "-token", token, lit "-db", db, lit "-file", file, lit "-conn", conn,
         lit "-prefix", pfx, lit "-mode", mode, lit "-theme", theme,
         lit "-allowforward=" ++ sb] =
        some (.ok
          { vars :=
              { port := p, address := l, initCapacity := size, maxCapacity := maxsize,
                pageSize := page, masterToken := token, dbType := db, dbFile := file,
                dbConnection := conn, rawPrefix := pfx, mode := mode, theme := theme,
                allowForward := b, baskets := [] },
            args := [] }) :=
      (FlagSet.Parse_value Flag.port rfl FlagVars.defaults _ sp _
          (Flag.Set_port sp p _ hp)).trans <|
      (FlagSet.Parse_value Flag.address rfl _ _ l _ rfl).trans <|
      (FlagSet.Parse_value Flag.initCapacity rfl _ _ ss _
          (Flag.Set_initCapacity ss size _ hs)).trans <|
      (FlagSet.Parse_value Flag.maxCapacity rfl _ _ sm _
          (Flag.Set_maxCapacity sm maxsize _ hm)).trans <|
      (FlagSet.Parse_value Flag.pageSize rfl _ _ sg _
          (Flag.Set_pageSize sg page _ hg)).trans <|
      (FlagSet.Parse_value Flag.masterToken rfl _ _ token _ rfl).trans <|
      (FlagSet.Parse_value Flag.dbType rfl _ _ db _ rfl).trans <|
      (FlagSet.Parse_value Flag.dbFile rfl _ _ file _ rfl).trans <|
      (FlagSet.Parse_value Flag.dbConnection rfl _ _ conn _ rfl).trans <|
      (FlagSet.Parse_value Flag.rawPrefix rfl _ _ pfx _ rfl).trans <|
      (FlagSet.Parse_value Flag.mode rfl _ _ mode _ rfl).trans <|
      (FlagSet.Parse_value Flag.theme rfl _ _ theme _ rfl).trans <|
      (FlagSet.Parse_allowforward _ sb b [] hb).trans <|
      FlagSet.Parse_nil _
    exact CreateConfig_of_Parse env _ _ hparse

/-- Instance of the amended C8 theorem with all thirteen options, `size` above `maxsize`. -/
theorem supplied_options_record_witness :
    CreateConfig Env.sample
      [lit "-p", lit "8080", lit "-l", lit "0.0.0.0", lit "-size", lit "5000",
       lit "-maxsize", lit "10", lit "-page", lit "0x10", lit "-token", lit "SECRET123",
       lit "-db", lit "sql", lit "-file", lit "/tmp/b.db", lit "-conn", lit "postgres://db",
       lit "-prefix", lit "api", lit "-mode", lit "restricted", lit "-theme", lit "flatly",
       lit "-allowforward=" ++ lit "true"] =
    some (Outcome.ret
      { ServerPort := 8080
        ServerAddr := lit "0.0.0.0"
        InitCapacity := 5000
        MaxCapacity := 10
        PageSize := 16
        MasterToken := lit "SECRET123"
        DbType := lit "sql"
        DbFile := lit "/tmp/b.db"
        DbConnection := lit "postgres://db"
        Baskets := []
        PathPrefix := lit "/api"
        Mode := lit "restricted"
        Theme := lit "flatly"
        ThemeCSS := lit "<!-- flatly -->"
        AllowForward := true }
      []) :=
  (supplied_options_record Env.sample).2 (lit "8080") (lit "5000") (lit "10") (lit "0x10")
    (lit "true") 8080 5000 10 16 true (lit "0.0.0.0") (lit "SECRET123") (lit "sql")
    (lit "/tmp/b.db") (lit "postgres://db") (lit "api") (lit "restricted") (lit "flatly")
    rfl rfl rfl rfl rfl

/-- C9: whatever three strings are given as `-db`, `-mode` and `-theme`, inside the
documented sets or not, `CreateConfig` returns (no exit, no error) and the record's
`DbType`, `Mode` and `Theme` are those strings as they are. -/
theorem enum_like_values_verbatim (env : Env) (db mode theme : GoString) :
    ∃ cfg eff,
      CreateConfig env [lit "-db", db, lit "-mode", mode, lit "-theme", theme] =
        some (Outcome.ret cfg eff) ∧
      cfg.DbType = db ∧ cfg.Mode = mode ∧ cfg.Theme = theme := by
  have hparse : CommandLine.Parse [lit "-db", db, lit "-mode", mode, lit "-theme", theme] =
      some (.ok
        { vars := { FlagVars.defaults with dbType := db, mode := mode, theme := theme },
          args := [] }) :=
    (FlagSet.Parse_value Flag.dbType rfl FlagVars.defaults _ db _ rfl).trans <|
    (FlagSet.Parse_value Flag.mode rfl _ _ mode _ rfl).trans <|
    (FlagSet.Parse_value Flag.theme rfl _ _ theme _ rfl).trans <|
    FlagSet.Parse_nil _
  exact ⟨_, _, CreateConfig_of_Parse env _ _ hparse, rfl, rfl, rfl⟩

/-- Instance of the C9 theorem at values outside the documented sets. -/
theorem enum_like_values_verbatim_witness :
    ∃ cfg eff,
      CreateConfig Env.sample [lit "-db", lit "oracle", lit "-mode", lit "", lit "-theme",
        lit "dark"] = some (Outcome.ret cfg eff) ∧
      cfg.DbType = lit "oracle" ∧ cfg.Mode = lit "" ∧ cfg.Theme = lit "dark" :=
  enum_like_values_verbatim Env.sample (lit "oracle") (lit "") (lit "dark")

/-- C10, as stated, fails: for `-p 8080 -db embedded-file -prefix api -mode restricted`
the token option is omitted, yet the record's `MasterToken` is the generated token,
not the empty default of the token option. -/
theorem example_command_line_masterToken_generated :
    ∃ cfg eff, CreateConfig Env.sample
        [lit "-p", lit "8080", lit "-db", lit "embedded-file", lit "-prefix", lit "api",
         lit "-mode", lit "restricted"] = some (Outcome.ret cfg eff) ∧
      cfg.MasterToken = lit "tok" ∧ cfg.MasterToken ≠ FlagVars.defaults.masterToken ∧
      cfg.MasterToken ≠ lit "" :=
  ⟨_, _, rfl, rfl, by decide, by decide⟩

/-- C10, amended: for `-p 8080 -db embedded-file -prefix api -mode restricted` the
record has `ServerPort = 8080`, `DbType = "embedded-file"`, `PathPrefix = "/api"`,
`Mode = "restricted"`, every other field at its documented default, except that
`MasterToken` is the string the generator returned in this call (which is called
once and logged once). -/
theorem example_command_line (env : Env) :
    CreateConfig env
      [lit "-p", lit "8080", lit "-db", lit "embedded-file", lit "-prefix", lit "api",
       lit "-mode", lit "restricted"] =
    some (Outcome.ret
      { ServerPort := 8080
        ServerAddr := lit "127.0.0.1"
        InitCapacity := 200
        MaxCapacity := 2000
        PageSize := 20
        MasterToken := (env.GenerateToken ()).1
        DbType := lit "embedded-file"
        DbFile := lit "./baskets.db"
        DbConnection := lit ""
        Baskets := []
        PathPrefix := lit "/api"
        Mode := lit "restricted"
        Theme := lit "standard"
        ThemeCSS := env.toThemeCSS (lit "standard")
        AllowForward := false }
      [Effect.callGenerateToken,
        Effect.logPrintf (generatedTokenMessage (env.GenerateToken ()).1)]) :=
  rfl

/-- Instance of the amended C10 theorem at a generator that returns `tok`. -/
theorem example_command_line_witness :
    ∃ cfg eff, CreateConfig Env.sample
        [lit "-p", lit "8080", lit "-db", lit "embedded-file", lit "-prefix", lit "api",
         lit "-mode", lit "restricted"] = some (Outcome.ret cfg eff) ∧
      cfg.ServerPort = 8080 ∧ cfg.PathPrefix = lit "/api" ∧ cfg.MasterToken = lit "tok" :=
  ⟨_, _, example_command_line Env.sample, rfl, rfl, rfl⟩

end RequestBaskets
